import Mathlib

/-!
Verification of the personal-manager command shell: a shallow embedding of
the command-execution and output-rendering pipeline of `cli.py` (line mode)
and `tui.py` (interactive mode), with theorems about exit codes, shell
wrapping, transcript formatting and the not-implemented stubs.

The external world (which programs exist, what a spawned process prints and
returns) is abstracted as a `SysEnv`: a flag saying whether the preferred
shell `fish` resolves, and a map from an argument vector to the outcome the
Python `subprocess.run` call would observe for it.
-/

namespace PersonalManager

/-- What one `subprocess.run(argv, check=True, capture_output=True)` call can
observe: the process completed with an exit code and captured streams (a
non-zero code surfaces as `CalledProcessError` carrying the same data), the
executable was missing (`FileNotFoundError`), the user interrupted
(`KeyboardInterrupt`), or some other exception was raised. -/
inductive RunOutcome where
  | completed (exitCode : Int) (stdout stderr : String)
  | fileNotFound
  | interrupted
  | errored (msg : String)
deriving DecidableEq, Repr

/-- A Python exception propagating out of a callee. -/
inductive PyExc where
  | keyboardInterrupt
  | otherExc (msg : String)
deriving DecidableEq, Repr

/-- A value returned normally, or an exception the callee let escape. -/
inductive PyResult (α : Type) where
  | ok (a : α)
  | raised (e : PyExc)
deriving DecidableEq, Repr

/-- The environment a command runs against: whether `which fish` succeeds,
and what outcome executing a given argument vector produces. -/
structure SysEnv where
  fishAvailable : Bool
  exec : List String → RunOutcome

/-- Python `str.strip()` with no argument: drop leading and trailing
whitespace, modelled directly on the character list. -/
def pyStrip (s : String) : String :=
  ⟨((s.data.dropWhile Char.isWhitespace).reverse.dropWhile Char.isWhitespace).reverse⟩

/-- Helper for `pySplit`: scan the character list, carrying the characters of
the current word in reverse in `acc`. -/
def pySplitGo : List Char → List Char → List String
  | [], acc => if acc.isEmpty then [] else [String.mk acc.reverse]
  | c :: cs, acc =>
      if c.isWhitespace then
        if acc.isEmpty then pySplitGo cs [] else String.mk acc.reverse :: pySplitGo cs []
      else pySplitGo cs (c :: acc)

/-- Python `str.split()` with no argument: split on whitespace runs,
keeping no empty pieces. -/
def pySplit (s : String) : List String := pySplitGo s.data []

/-- The shell selection and wrapping done by `execute_shell_command` in
`cli.py`: probe `which fish`, pick `fish` when it resolves and `bash`
otherwise, and wrap the space-joined user tokens as `[shell, "-c", joined]`. -/
def shellWrap (sys : SysEnv) (cmd : List String) : List String :=
  [(if sys.fishAvailable then "fish" else "bash"), "-c", String.intercalate " " cmd]

/-- The observable behaviour of one `cli.py` helper call: bytes written to
standard output and standard error, the value returned (or the exception
raised), and the argument vectors handed to `subprocess.run`, in order. -/
structure ShellOut where
  outBytes : String
  errBytes : String
  result : PyResult Int
  spawned : List (List String)
deriving DecidableEq, Repr

/-- `PersonalManager.execute_shell_command` (cli.py lines 42-83): wrap the
tokens for the detected shell, run with `check=True` in binary mode, write
the captured streams through, and return the exit code; on
`FileNotFoundError` print `Command not found: <cmd[0]>` to standard error
and return 1; `CalledProcessError` is handled identically to success (both
write the streams and return the returncode); other exceptions escape. -/
def execute_shell_command (sys : SysEnv) (cmd : List String) : ShellOut :=
  let full := shellWrap sys cmd
  match sys.exec full with
  | .completed code out err =>
      { outBytes := out, errBytes := err, result := .ok code,
        spawned := [["which", "fish"], full] }
  | .fileNotFound =>
      { outBytes := "", errBytes := "Command not found: " ++ cmd.headD "" ++ "\n",
        result := .ok 1, spawned := [["which", "fish"], full] }
  | .interrupted =>
      { outBytes := "", errBytes := "", result := .raised .keyboardInterrupt,
        spawned := [["which", "fish"], full] }
  | .errored msg =>
      { outBytes := "", errBytes := "", result := .raised (.otherExc msg),
        spawned := [["which", "fish"], full] }

/-- `PersonalManager.handle_task_command` (cli.py lines 85-92). The Python
method returns `None`; the `Int` in a normal result is unused by the caller. -/
def handle_task_command (sys : SysEnv) (action : Option String) : ShellOut :=
  if action = some "list" then
    execute_shell_command sys ["task", "list"]
  else if action = some "add" then
    { outBytes := "Task add functionality - integrate with taskwarrior\n",
      errBytes := "", result := .ok 0, spawned := [] }
  else
    { outBytes := "Unknown task action\n", errBytes := "", result := .ok 0, spawned := [] }

/-- `PersonalManager.handle_time_command` (cli.py lines 94-103). -/
def handle_time_command (sys : SysEnv) (action : Option String) : ShellOut :=
  if action = some "start" then
    { outBytes := "Time start functionality - integrate with timewarrior\n",
      errBytes := "", result := .ok 0, spawned := [] }
  else if action = some "stop" then
    { outBytes := "Time stop functionality - integrate with timewarrior\n",
      errBytes := "", result := .ok 0, spawned := [] }
  else if action = some "summary" then
    execute_shell_command sys ["timew", "summary"]
  else
    { outBytes := "Unknown time action\n", errBytes := "", result := .ok 0, spawned := [] }

/-- The result of argument parsing in `run`: either no subcommand, or one of
the three subcommands with its payload (`shell` carries the user tokens, a
non-empty list enforced by the parser; `task`/`time` carry the optional
sub-action string). -/
inductive ParsedCommand where
  | noCommand
  | shell (cmd : List String)
  | task (action : Option String)
  | time (action : Option String)
deriving DecidableEq, Repr

/-- Modelled from the spec: the usage/help text printed when no subcommand is
given. Its exact content is generated by the Python standard library
argument parser from the subcommands configured in `_setup_parser`, so only
its identity matters here, not its wording. -/
def usageText : String := "usage: pm [-h] ..."

/-- The observable behaviour of one line-mode invocation: the process exit
code, the text written to standard output and standard error, and the
argument vectors handed to `subprocess.run`, in order. -/
structure RunObs where
  exitCode : Int
  stdoutText : String
  stderrText : String
  spawned : List (List String)
deriving DecidableEq, Repr

/-- `PersonalManager.run` (cli.py lines 105-131): print help and return 0
when no subcommand was given; return `execute_shell_command`'s code for
`shell`; call the `task`/`time` handler and fall through to `return 0`,
discarding any exit code the handler obtained; catch `KeyboardInterrupt`
(print a cancellation notice, return 130) and any other exception (print
`Error: <e>` to standard error, return 1). -/
def run (sys : SysEnv) (args : ParsedCommand) : RunObs :=
  match args with
  | .noCommand =>
      { exitCode := 0, stdoutText := usageText, stderrText := "", spawned := [] }
  | .shell cmd =>
      let s := execute_shell_command sys cmd
      match s.result with
      | .ok code =>
          { exitCode := code, stdoutText := s.outBytes, stderrText := s.errBytes,
            spawned := s.spawned }
      | .raised .keyboardInterrupt =>
          { exitCode := 130, stdoutText := s.outBytes ++ "\nOperation cancelled by user\n",
            stderrText := s.errBytes, spawned := s.spawned }
      | .raised (.otherExc msg) =>
          { exitCode := 1, stdoutText := s.outBytes,
            stderrText := s.errBytes ++ "Error: " ++ msg ++ "\n", spawned := s.spawned }
  | .task action =>
      let s := handle_task_command sys action
      match s.result with
      | .ok _ =>
          { exitCode := 0, stdoutText := s.outBytes, stderrText := s.errBytes,
            spawned := s.spawned }
      | .raised .keyboardInterrupt =>
          { exitCode := 130, stdoutText := s.outBytes ++ "\nOperation cancelled by user\n",
            stderrText := s.errBytes, spawned := s.spawned }
      | .raised (.otherExc msg) =>
          { exitCode := 1, stdoutText := s.outBytes,
            stderrText := s.errBytes ++ "Error: " ++ msg ++ "\n", spawned := s.spawned }
  | .time action =>
      let s := handle_time_command sys action
      match s.result with
      | .ok _ =>
          { exitCode := 0, stdoutText := s.outBytes, stderrText := s.errBytes,
            spawned := s.spawned }
      | .raised .keyboardInterrupt =>
          { exitCode := 130, stdoutText := s.outBytes ++ "\nOperation cancelled by user\n",
            stderrText := s.errBytes, spawned := s.spawned }
      | .raised (.otherExc msg) =>
          { exitCode := 1, stdoutText := s.outBytes,
            stderrText := s.errBytes ++ "Error: " ++ msg ++ "\n", spawned := s.spawned }

/-- The observable behaviour of one interactive-mode action: the new content
of the output region (`none` when the action leaves the region untouched)
and the argument vectors handed to `subprocess.run`, in order. -/
structure TuiObs where
  display : Option String
  spawned : List (List String)
deriving DecidableEq, Repr

/-- `PersonalManagerTUI.execute_shell_command` (tui.py lines 102-144): strip
the input; on an empty result show `Please enter a shell command` and run
nothing; otherwise split on whitespace and run the tokens directly (no
shell wrapping) with `check=True` in text mode, then render
`$ <stripped input>` followed by the outcome body; `KeyboardInterrupt` is
not an `Exception` in Python, so it escapes the final handler. -/
def tui_execute_shell_command (sys : SysEnv) (inputValue : String) : PyResult TuiObs :=
  let command := pyStrip inputValue
  if command = "" then
    .ok { display := some "Please enter a shell command", spawned := [] }
  else
    let cmd_parts := pySplit command
    match sys.exec cmd_parts with
    | .completed code out err =>
        if code = 0 then
          let output := (if out ≠ "" then out else "")
            ++ (if err ≠ "" then "STDERR:\n" ++ err else "")
          let output := if output = "" then "Command executed successfully (no output)"
            else output
          .ok { display := some ("$ " ++ command ++ "\n" ++ output), spawned := [cmd_parts] }
        else
          let output := "Command failed with exit code " ++ toString code ++ "\n"
            ++ (if out ≠ "" then "STDOUT:\n" ++ out ++ "\n" else "")
            ++ (if err ≠ "" then "STDERR:\n" ++ err else "")
          .ok { display := some ("$ " ++ command ++ "\n" ++ output), spawned := [cmd_parts] }
    | .fileNotFound =>
        .ok { display := some ("$ " ++ command ++ "\nCommand not found: " ++ cmd_parts.headD ""),
              spawned := [cmd_parts] }
    | .interrupted => .raised .keyboardInterrupt
    | .errored msg =>
        .ok { display := some ("$ " ++ command ++ "\nError: " ++ msg), spawned := [cmd_parts] }

/-- `PersonalManagerTUI._execute_and_display` (tui.py lines 162-193): run the
given tokens directly with `check=True` in text mode and render
`$ <space-joined tokens>` followed by the outcome body; the empty-output
notice here names the command. -/
def tui_execute_and_display (sys : SysEnv) (cmd_parts : List String) : PyResult TuiObs :=
  let command := String.intercalate " " cmd_parts
  match sys.exec cmd_parts with
  | .completed code out err =>
      if code = 0 then
        let output := (if out ≠ "" then out else "")
          ++ (if err ≠ "" then "STDERR:\n" ++ err else "")
        let output := if output = "" then
            "Command " ++ command ++ " executed successfully (no output)"
          else output
        .ok { display := some ("$ " ++ command ++ "\n" ++ output), spawned := [cmd_parts] }
      else
        let output := "Command failed with exit code " ++ toString code ++ "\n"
          ++ (if out ≠ "" then "STDOUT:\n" ++ out ++ "\n" else "")
          ++ (if err ≠ "" then "STDERR:\n" ++ err else "")
        .ok { display := some ("$ " ++ command ++ "\n" ++ output), spawned := [cmd_parts] }
  | .fileNotFound =>
      .ok { display := some ("$ " ++ command ++ "\nCommand not found: " ++ cmd_parts.headD ""),
            spawned := [cmd_parts] }
  | .interrupted => .raised .keyboardInterrupt
  | .errored msg =>
      .ok { display := some ("$ " ++ command ++ "\nError: " ++ msg), spawned := [cmd_parts] }

/-- `PersonalManagerTUI.on_button_pressed` (tui.py lines 61-78), together
with the `execute_task_command`/`execute_time_command` dispatch it calls
(lines 146-160): each menu button either shows a static message, runs a
fixed command, runs the free-form shell input, or only toggles interface
visibility (`shell-btn`, which changes no output). -/
def on_button_pressed (sys : SysEnv) (buttonId : String) (shellInputValue : String) :
    PyResult TuiObs :=
  if buttonId = "shell-btn" then
    .ok { display := none, spawned := [] }
  else if buttonId = "execute-btn" then
    tui_execute_shell_command sys shellInputValue
  else if buttonId = "task-list-btn" then
    tui_execute_and_display sys ["task", "list"]
  else if buttonId = "add-task-btn" then
    .ok { display := some "Add task functionality - integrate with taskwarrior", spawned := [] }
  else if buttonId = "time-summary-btn" then
    tui_execute_and_display sys ["timew", "summary"]
  else if buttonId = "start-time-btn" then
    .ok { display := some "Time start functionality - integrate with timewarrior", spawned := [] }
  else if buttonId = "stop-time-btn" then
    .ok { display := some "Time stop functionality - integrate with timewarrior", spawned := [] }
  else
    .ok { display := none, spawned := [] }

/-! ### Concrete environments used by witnesses and counterexamples -/

/-- An environment where `fish` resolves, `echo hi` prints `hi`, and every
other command succeeds silently. -/
def sysEchoHi : SysEnv :=
  { fishAvailable := true,
    exec := fun c => if c = ["echo", "hi"] then .completed 0 "hi\n" "" else .completed 0 "" "" }

/-- An environment where `fish` resolves and the wrapped `task list`
invocation exits 2 with a diagnostic on standard error. -/
def sysTaskFails : SysEnv :=
  { fishAvailable := true,
    exec := fun c =>
      if c = ["fish", "-c", "task list"] then .completed 2 "" "task failed\n"
      else .completed 0 "" "" }

/-- An environment where `fish` is absent and the wrapped `false` invocation
exits 1 silently. -/
def sysFalse : SysEnv :=
  { fishAvailable := false,
    exec := fun c =>
      if c = ["bash", "-c", "false"] then .completed 1 "" "" else .completed 0 "" "" }

/-- An environment where no program resolves: every spawn attempt raises
`FileNotFoundError`. -/
def sysNF : SysEnv := { fishAvailable := true, exec := fun _ => .fileNotFound }

/-- An environment where every spawn attempt is hit by a user interrupt. -/
def sysIntr : SysEnv := { fishAvailable := true, exec := fun _ => .interrupted }

/-- An environment where `grep x` exits 1 printing nothing and everything
else succeeds with output `ok`. -/
def sysGrepFails : SysEnv :=
  { fishAvailable := false,
    exec := fun c => if c = ["grep", "x"] then .completed 1 "" "" else .completed 0 "ok\n" "" }

/-! ### Helper lemmas -/

/-- A concatenation of strings is empty exactly when both parts are. -/
lemma string_append_eq_empty_iff (a b : String) : a ++ b = "" ↔ a = "" ∧ b = "" := by
  rw [String.ext_iff, String.ext_iff, String.ext_iff, String.data_append]
  exact List.append_eq_nil

/-- The task-list button dispatches to `_execute_and_display ["task", "list"]`. -/
lemma on_button_task_list (sys : SysEnv) (input : String) :
    on_button_pressed sys "task-list-btn" input
      = tui_execute_and_display sys ["task", "list"] := rfl

/-- The time-summary button dispatches to
`_execute_and_display ["timew", "summary"]`. -/
lemma on_button_time_summary (sys : SysEnv) (input : String) :
    on_button_pressed sys "time-summary-btn" input
      = tui_execute_and_display sys ["timew", "summary"] := rfl

/-! ### Claims -/

/-- C1 (counterexample): the claim says the line-mode exit code equals the
underlying exit code also for `pm task list`, but when the wrapped `task
list` invocation exits 2 the program still exits 0: `run` ignores what
`handle_task_command` obtained and falls through to `return 0`. -/
theorem C1_exit_code_counterexample :
    sysTaskFails.exec (shellWrap sysTaskFails ["task", "list"])
      = RunOutcome.completed 2 "" "task failed\n"
    ∧ (run sysTaskFails (ParsedCommand.task (some "list"))).exitCode = 0
    ∧ (0 : Int) ≠ 2 := by decide

/-- C1 (amended): in line mode the `shell` subcommand does return the
underlying exit code (1 on a missing program, 1 on an unexpected error),
but for `task list` and `time summary` the handler's code is discarded and
the program exits 0 whenever the invocation completes (with any exit code)
or hits a missing program; only an escaping exception changes that. -/
theorem C1_line_mode_exit_codes :
    (∀ (sys : SysEnv) (cmd : List String) (code : Int) (out err : String),
      sys.exec (shellWrap sys cmd) = RunOutcome.completed code out err →
      (run sys (ParsedCommand.shell cmd)).exitCode = code)
    ∧ (∀ (sys : SysEnv) (cmd : List String),
      sys.exec (shellWrap sys cmd) = RunOutcome.fileNotFound →
      (run sys (ParsedCommand.shell cmd)).exitCode = 1)
    ∧ (∀ (sys : SysEnv) (cmd : List String) (msg : String),
      sys.exec (shellWrap sys cmd) = RunOutcome.errored msg →
      (run sys (ParsedCommand.shell cmd)).exitCode = 1)
    ∧ (∀ (sys : SysEnv) (code : Int) (out err : String),
      sys.exec (shellWrap sys ["task", "list"]) = RunOutcome.completed code out err →
      (run sys (ParsedCommand.task (some "list"))).exitCode = 0)
    ∧ (∀ (sys : SysEnv),
      sys.exec (shellWrap sys ["task", "list"]) = RunOutcome.fileNotFound →
      (run sys (ParsedCommand.task (some "list"))).exitCode = 0)
    ∧ (∀ (sys : SysEnv) (code : Int) (out err : String),
      sys.exec (shellWrap sys ["timew", "summary"]) = RunOutcome.completed code out err →
      (run sys (ParsedCommand.time (some "summary"))).exitCode = 0) := by
  refine ⟨?_, ?_, ?_, ?_, ?_, ?_⟩
  · intro sys cmd code out err h
    simp [run, execute_shell_command, h]
  · intro sys cmd h
    simp [run, execute_shell_command, h]
  · intro sys cmd msg h
    simp [run, execute_shell_command, h]
  · intro sys code out err h
    simp [run, handle_task_command, execute_shell_command, h]
  · intro sys h
    simp [run, handle_task_command, execute_shell_command, h]
  · intro sys code out err h
    simp [run, handle_time_command, execute_shell_command, h]

/-- C1 (witness): with `fish` absent and the wrapped `false` exiting 1, the
line-mode `shell` invocation exits 1. -/
theorem C1_line_mode_exit_codes_witness :
    (run sysFalse (ParsedCommand.shell ["false"])).exitCode = 1 :=
  C1_line_mode_exit_codes.1 sysFalse ["false"] 1 "" "" (by decide)

/-- C2 (counterexample): the claim says both modes wrap the free-form shell
action as `[shellPath, "-c", joined]`, but the interactive mode runs the
split tokens directly: submitting `echo hi` spawns `["echo", "hi"]`, not a
`fish` or `bash` `-c` invocation. -/
theorem C2_shell_wrap_counterexample :
    tui_execute_shell_command sysEchoHi "echo hi"
      = PyResult.ok { display := some "$ echo hi\nhi\n", spawned := [["echo", "hi"]] }
    ∧ [["echo", "hi"]] ≠ [["fish", "-c", "echo hi"]]
    ∧ [["echo", "hi"]] ≠ [["bash", "-c", "echo hi"]] := by decide

/-- C2 (amended): only line mode wraps the shell action as
`[shellPath, "-c", joined]` with `fish` preferred over `bash`; interactive
mode splits the input on whitespace and spawns the tokens directly, with no
shell detection or wrapping. -/
theorem C2_shell_wrapping :
    (∀ (sys : SysEnv) (cmd : List String),
      (execute_shell_command sys cmd).spawned
        = [["which", "fish"],
           [(if sys.fishAvailable then "fish" else "bash"), "-c",
            String.intercalate " " cmd]])
    ∧ (∀ (sys : SysEnv) (input : String) (code : Int) (out err : String),
      pyStrip input ≠ "" →
      sys.exec (pySplit (pyStrip input)) = RunOutcome.completed code out err →
      ∃ obs, tui_execute_shell_command sys input = PyResult.ok obs
        ∧ obs.spawned = [pySplit (pyStrip input)]) := by
  constructor
  · intro sys cmd
    cases hx : sys.exec (shellWrap sys cmd) <;>
      simp only [execute_shell_command, hx] <;> rfl
  · intro sys input code out err h hexec
    simp only [tui_execute_shell_command, if_neg h, hexec]
    split
    · exact ⟨_, rfl, rfl⟩
    · exact ⟨_, rfl, rfl⟩

/-- C2 (witness): submitting `echo hi` in interactive mode spawns exactly
`["echo", "hi"]`. -/
theorem C2_shell_wrapping_witness :
    ∃ obs, tui_execute_shell_command sysEchoHi "echo hi" = PyResult.ok obs
      ∧ obs.spawned = [pySplit (pyStrip "echo hi")] :=
  C2_shell_wrapping.2 sysEchoHi "echo hi" 0 "hi\n" "" (by decide) (by decide)

/-- C3 (counterexample): the claim says both modes launch exactly
`["task", "list"]`, but line mode routes it through the shell wrapper: it
probes `which fish` and spawns `["fish", "-c", "task list"]`. -/
theorem C3_direct_launch_counterexample :
    (run sysEchoHi (ParsedCommand.task (some "list"))).spawned
      = [["which", "fish"], ["fish", "-c", "task list"]]
    ∧ [["which", "fish"], ["fish", "-c", "task list"]] ≠ [["task", "list"]] := by decide

/-- C3 (amended): only interactive mode launches `["task", "list"]` and
`["timew", "summary"]` directly with no shell wrapping; line mode hands
both to the shell wrapper, spawning the `which fish` probe followed by
`[shellPath, "-c", "task list"]` resp. `[shellPath, "-c", "timew summary"]`. -/
theorem C3_task_time_launch :
    (∀ (sys : SysEnv) (input : String),
      sys.exec ["task", "list"] ≠ RunOutcome.interrupted →
      ∃ obs, on_button_pressed sys "task-list-btn" input = PyResult.ok obs
        ∧ obs.spawned = [["task", "list"]])
    ∧ (∀ (sys : SysEnv) (input : String),
      sys.exec ["timew", "summary"] ≠ RunOutcome.interrupted →
      ∃ obs, on_button_pressed sys "time-summary-btn" input = PyResult.ok obs
        ∧ obs.spawned = [["timew", "summary"]])
    ∧ (∀ (sys : SysEnv),
      (run sys (ParsedCommand.task (some "list"))).spawned
        = [["which", "fish"], shellWrap sys ["task", "list"]])
    ∧ (∀ (sys : SysEnv),
      (run sys (ParsedCommand.time (some "summary"))).spawned
        = [["which", "fish"], shellWrap sys ["timew", "summary"]]) := by
  refine ⟨?_, ?_, ?_, ?_⟩
  · intro sys input h
    rw [on_button_task_list]
    cases hx : sys.exec ["task", "list"] with
    | completed code out err =>
        simp only [tui_execute_and_display, hx]
        split
        · exact ⟨_, rfl, rfl⟩
        · exact ⟨_, rfl, rfl⟩
    | fileNotFound =>
        simp only [tui_execute_and_display, hx]
        exact ⟨_, rfl, rfl⟩
    | interrupted => exact absurd hx h
    | errored msg =>
        simp only [tui_execute_and_display, hx]
        exact ⟨_, rfl, rfl⟩
  · intro sys input h
    rw [on_button_time_summary]
    cases hx : sys.exec ["timew", "summary"] with
    | completed code out err =>
        simp only [tui_execute_and_display, hx]
        split
        · exact ⟨_, rfl, rfl⟩
        · exact ⟨_, rfl, rfl⟩
    | fileNotFound =>
        simp only [tui_execute_and_display, hx]
        exact ⟨_, rfl, rfl⟩
    | interrupted => exact absurd hx h
    | errored msg =>
        simp only [tui_execute_and_display, hx]
        exact ⟨_, rfl, rfl⟩
  · intro sys
    cases hx : sys.exec (shellWrap sys ["task", "list"]) <;>
      simp [run, handle_task_command, execute_shell_command, hx]
  · intro sys
    cases hx : sys.exec (shellWrap sys ["timew", "summary"]) <;>
      simp [run, handle_time_command, execute_shell_command, hx]

/-- C3 (witness): pressing the task-list button in an environment where
every command succeeds spawns exactly `["task", "list"]`. -/
theorem C3_task_time_launch_witness :
    ∃ obs, on_button_pressed sysEchoHi "task-list-btn" "" = PyResult.ok obs
      ∧ obs.spawned = [["task", "list"]] :=
  C3_task_time_launch.1 sysEchoHi "" (by decide)

/-- C4 (counterexample): the claim says both modes show
`$ <joined request>` newline `Command not found: <c0>`, but line mode
prints only the bare `Command not found: nosuchbin` line to standard error,
with no `$ ` header anywhere. -/
theorem C4_not_found_counterexample :
    (run sysNF (ParsedCommand.shell ["nosuchbin"])).stdoutText = ""
    ∧ (run sysNF (ParsedCommand.shell ["nosuchbin"])).stderrText
        = "Command not found: nosuchbin\n"
    ∧ "Command not found: nosuchbin\n" ≠ "$ nosuchbin\nCommand not found: nosuchbin" := by
  decide

/-- C4 (amended): in interactive mode a missing program yields exactly
`$ <command>` newline `Command not found: <first token>` (the header shows
the space-joined tokens in the menu path and the stripped raw input in the
free-form path); in line mode the program prints only
`Command not found: <c0>` to standard error, with no header line. -/
theorem C4_not_found_output :
    (∀ (sys : SysEnv) (c0 : String) (cs : List String),
      sys.exec (c0 :: cs) = RunOutcome.fileNotFound →
      tui_execute_and_display sys (c0 :: cs)
        = PyResult.ok
            { display := some ("$ " ++ String.intercalate " " (c0 :: cs)
                ++ "\nCommand not found: " ++ c0),
              spawned := [c0 :: cs] })
    ∧ (∀ (sys : SysEnv) (input : String),
      pyStrip input ≠ "" →
      sys.exec (pySplit (pyStrip input)) = RunOutcome.fileNotFound →
      tui_execute_shell_command sys input
        = PyResult.ok
            { display := some ("$ " ++ pyStrip input
                ++ "\nCommand not found: " ++ (pySplit (pyStrip input)).headD ""),
              spawned := [pySplit (pyStrip input)] })
    ∧ (∀ (sys : SysEnv) (c0 : String) (cs : List String),
      sys.exec (shellWrap sys (c0 :: cs)) = RunOutcome.fileNotFound →
      (run sys (ParsedCommand.shell (c0 :: cs))).stdoutText = ""
      ∧ (run sys (ParsedCommand.shell (c0 :: cs))).stderrText
          = "Command not found: " ++ c0 ++ "\n") := by
  refine ⟨?_, ?_, ?_⟩
  · intro sys c0 cs hx
    simp only [tui_execute_and_display, hx]
    rfl
  · intro sys input h hx
    simp only [tui_execute_shell_command, if_neg h, hx]
  · intro sys c0 cs hx
    constructor <;> simp [run, execute_shell_command, hx]

/-- C4 (witness): in an environment where nothing resolves, the interactive
task-list rendering shows the header and the not-found line. -/
theorem C4_not_found_output_witness :
    tui_execute_and_display sysNF ["task", "list"]
      = PyResult.ok
          { display := some ("$ " ++ String.intercalate " " ["task", "list"]
              ++ "\nCommand not found: " ++ "task"),
            spawned := [["task", "list"]] } :=
  C4_not_found_output.1 sysNF "task" ["list"] (by decide)

/-- C5 (confirmed): `task add`, `time start` and `time stop` spawn no
process in either mode and show only the fixed informational message naming
the backend (taskwarrior resp. timewarrior) to integrate with. -/
theorem C5_stub_actions_no_spawn (sys : SysEnv) (input : String) :
    run sys (ParsedCommand.task (some "add"))
      = { exitCode := 0,
          stdoutText := "Task add functionality - integrate with taskwarrior\n",
          stderrText := "", spawned := [] }
    ∧ run sys (ParsedCommand.time (some "start"))
      = { exitCode := 0,
          stdoutText := "Time start functionality - integrate with timewarrior\n",
          stderrText := "", spawned := [] }
    ∧ run sys (ParsedCommand.time (some "stop"))
      = { exitCode := 0,
          stdoutText := "Time stop functionality - integrate with timewarrior\n",
          stderrText := "", spawned := [] }
    ∧ on_button_pressed sys "add-task-btn" input
      = PyResult.ok { display := some "Add task functionality - integrate with taskwarrior",
                      spawned := [] }
    ∧ on_button_pressed sys "start-time-btn" input
      = PyResult.ok { display := some "Time start functionality - integrate with timewarrior",
                      spawned := [] }
    ∧ on_button_pressed sys "stop-time-btn" input
      = PyResult.ok { display := some "Time stop functionality - integrate with timewarrior",
                      spawned := [] } :=
  ⟨rfl, rfl, rfl, rfl, rfl, rfl⟩

/-- C6 (confirmed): in both interactive formatters, a command that runs and
exits non-zero renders a body that begins with
`Command failed with exit code <n>`, followed by a `STDOUT:` section exactly
when the captured stdout is non-empty, then a `STDERR:` section exactly
when the captured stderr is non-empty. -/
theorem C6_process_error_format :
    (∀ (sys : SysEnv) (input : String) (code : Int) (out err : String),
      pyStrip input ≠ "" →
      sys.exec (pySplit (pyStrip input)) = RunOutcome.completed code out err →
      code ≠ 0 →
      tui_execute_shell_command sys input
        = PyResult.ok
            { display := some ("$ " ++ pyStrip input ++ "\n"
                ++ ("Command failed with exit code " ++ toString code ++ "\n"
                    ++ (if out = "" then "" else "STDOUT:\n" ++ out ++ "\n")
                    ++ (if err = "" then "" else "STDERR:\n" ++ err))),
              spawned := [pySplit (pyStrip input)] })
    ∧ (∀ (sys : SysEnv) (cmd_parts : List String) (code : Int) (out err : String),
      sys.exec cmd_parts = RunOutcome.completed code out err →
      code ≠ 0 →
      tui_execute_and_display sys cmd_parts
        = PyResult.ok
            { display := some ("$ " ++ String.intercalate " " cmd_parts ++ "\n"
                ++ ("Command failed with exit code " ++ toString code ++ "\n"
                    ++ (if out = "" then "" else "STDOUT:\n" ++ out ++ "\n")
                    ++ (if err = "" then "" else "STDERR:\n" ++ err))),
              spawned := [cmd_parts] }) := by
  constructor
  · intro sys input code out err h hexec hcode
    simp only [tui_execute_shell_command, if_neg h, hexec, if_neg hcode]
    by_cases ho : out = "" <;> by_cases he : err = "" <;>
      simp [ho, he, String.append_assoc]
  · intro sys cmd_parts code out err hexec hcode
    simp only [tui_execute_and_display, hexec, if_neg hcode]
    by_cases ho : out = "" <;> by_cases he : err = "" <;>
      simp [ho, he, String.append_assoc]

/-- C6 (witness): `grep x` exiting 1 with no output renders the bare failure
line under the header. -/
theorem C6_process_error_format_witness :
    tui_execute_shell_command sysGrepFails "grep x"
      = PyResult.ok
          { display := some ("$ " ++ pyStrip "grep x" ++ "\n"
              ++ ("Command failed with exit code " ++ toString (1 : Int) ++ "\n"
                  ++ (if ("" : String) = "" then "" else "STDOUT:\n" ++ "" ++ "\n")
                  ++ (if ("" : String) = "" then "" else "STDERR:\n" ++ ""))),
            spawned := [pySplit (pyStrip "grep x")] } :=
  C6_process_error_format.1 sysGrepFails "grep x" 1 "" "" (by decide) (by decide) (by decide)

/-- C7 (confirmed): in both interactive formatters, a command that exits
zero renders the captured stdout as the body; when stdout and stderr are
both empty the body is instead the `executed successfully (no output)`
notice (naming the command in the menu path); a non-empty stderr beside the
zero exit is appended prefixed by `STDERR:` and a newline. -/
theorem C7_success_format :
    (∀ (sys : SysEnv) (input : String) (out err : String),
      pyStrip input ≠ "" →
      sys.exec (pySplit (pyStrip input)) = RunOutcome.completed 0 out err →
      tui_execute_shell_command sys input
        = PyResult.ok
            { display := some ("$ " ++ pyStrip input ++ "\n"
                ++ (if out = "" ∧ err = "" then "Command executed successfully (no output)"
                    else out ++ (if err = "" then "" else "STDERR:\n" ++ err))),
              spawned := [pySplit (pyStrip input)] })
    ∧ (∀ (sys : SysEnv) (cmd_parts : List String) (out err : String),
      sys.exec cmd_parts = RunOutcome.completed 0 out err →
      tui_execute_and_display sys cmd_parts
        = PyResult.ok
            { display := some ("$ " ++ String.intercalate " " cmd_parts ++ "\n"
                ++ (if out = "" ∧ err = "" then
                      "Command " ++ String.intercalate " " cmd_parts
                        ++ " executed successfully (no output)"
                    else out ++ (if err = "" then "" else "STDERR:\n" ++ err))),
              spawned := [cmd_parts] }) := by
  constructor
  · intro sys input out err h hexec
    simp only [tui_execute_shell_command, if_neg h, hexec]
    by_cases ho : out = "" <;> by_cases he : err = "" <;>
      simp [ho, he, string_append_eq_empty_iff, String.append_assoc]
  · intro sys cmd_parts out err hexec
    simp only [tui_execute_and_display, hexec]
    by_cases ho : out = "" <;> by_cases he : err = "" <;>
      simp [ho, he, string_append_eq_empty_iff, String.append_assoc]

/-- C7 (witness): `echo hi` exiting 0 with stdout `hi` renders that stdout
as the body under the header. -/
theorem C7_success_format_witness :
    tui_execute_shell_command sysEchoHi "echo hi"
      = PyResult.ok { display := some "$ echo hi\nhi\n", spawned := [["echo", "hi"]] } :=
  (C7_success_format.1 sysEchoHi "echo hi" "hi\n" "" (by decide) (by decide)).trans (by decide)

/-- C8 (confirmed): a `KeyboardInterrupt` raised while handling a `shell`,
`task list` or `time summary` invocation in line mode is caught in `run`:
the program prints the cancellation notice and returns 130. -/
theorem C8_interrupt_exit_130 :
    (∀ (sys : SysEnv) (cmd : List String),
      sys.exec (shellWrap sys cmd) = RunOutcome.interrupted →
      (run sys (ParsedCommand.shell cmd)).exitCode = 130
      ∧ (run sys (ParsedCommand.shell cmd)).stdoutText = "\nOperation cancelled by user\n")
    ∧ (∀ (sys : SysEnv),
      sys.exec (shellWrap sys ["task", "list"]) = RunOutcome.interrupted →
      (run sys (ParsedCommand.task (some "list"))).exitCode = 130
      ∧ (run sys (ParsedCommand.task (some "list"))).stdoutText
          = "\nOperation cancelled by user\n")
    ∧ (∀ (sys : SysEnv),
      sys.exec (shellWrap sys ["timew", "summary"]) = RunOutcome.interrupted →
      (run sys (ParsedCommand.time (some "summary"))).exitCode = 130
      ∧ (run sys (ParsedCommand.time (some "summary"))).stdoutText
          = "\nOperation cancelled by user\n") := by
  refine ⟨?_, ?_, ?_⟩
  · intro sys cmd hx
    constructor <;> simp [run, execute_shell_command, hx]
  · intro sys hx
    constructor <;> simp [run, handle_task_command, execute_shell_command, hx]
  · intro sys hx
    constructor <;> simp [run, handle_time_command, execute_shell_command, hx]

/-- C8 (witness): in an environment where every spawn is interrupted, the
line-mode shell invocation exits 130. -/
theorem C8_interrupt_exit_130_witness :
    (run sysIntr (ParsedCommand.shell ["sleep", "100"])).exitCode = 130
    ∧ (run sysIntr (ParsedCommand.shell ["sleep", "100"])).stdoutText
        = "\nOperation cancelled by user\n" :=
  C8_interrupt_exit_130.1 sysIntr ["sleep", "100"] (by decide)

/-- C9 (confirmed): invoking line mode with no subcommand prints the help
text, exits 0, and spawns no external process. -/
theorem C9_no_subcommand_help (sys : SysEnv) :
    run sys ParsedCommand.noCommand
      = { exitCode := 0, stdoutText := usageText, stderrText := "", spawned := [] } := rfl

/-- C10 (confirmed): a whitespace-only interactive shell submission is
stripped to nothing, shows `Please enter a shell command`, and spawns no
process. -/
theorem C10_empty_input_no_spawn (sys : SysEnv) (s : String) (h : pyStrip s = "") :
    tui_execute_shell_command sys s
      = PyResult.ok { display := some "Please enter a shell command", spawned := [] } := by
  simp [tui_execute_shell_command, h]

/-- C10 (witness): submitting three spaces runs nothing and asks for a
command. -/
theorem C10_empty_input_no_spawn_witness :
    tui_execute_shell_command sysEchoHi "   "
      = PyResult.ok { display := some "Please enter a shell command", spawned := [] } :=
  C10_empty_input_no_spawn sysEchoHi "   " (by decide)

end PersonalManager
